import Mathlib

/-!
Verification of the OpenTPL/Astelco DIMM client and its mock server from the
repository lsst-ts/ts_dimm.

This file gives a shallow embedding in Lean 4 of the protocol-level data
structures and operations of
`python/lsst/ts/dimm/controllers/astelco_dimm.py`,
`python/lsst/ts/dimm/controllers/open_tpl_connection.py` and
`python/lsst/ts/dimm/controllers/mock_astelco_dimm.py`, together with theorems
that check the natural-language specification of the repository against the
code.

Modelling conventions:
* Python machine floats are modelled as `Option Rat`: `none` models NaN and
  `some q` models an ordinary value. The code under study only parses, stores
  and compares float values, so the parsing function (Python's `float(...)`
  builtin combined with the repr used when formatting) is kept as an explicit
  function argument wherever it is needed; witnesses instantiate it on the
  concrete literals they use.
* Python exceptions are modelled by the inductive `PyExc`; fallible code
  returns `Except PyExc`. `asyncio.CancelledError` derives from
  `BaseException` and not from `Exception` (Python >= 3.8), which the
  predicate `PyExc.isException` records.
* `asyncio.Future` objects (`done_task` of a command) are modelled as
  `Option (Except PyExc Unit)`: `none` while pending, `some outcome` once
  resolved; `set_result`/`set_exception` on a resolved future is what the
  code guards against and is modelled by leaving the value unchanged.
* Python dicts that the code iterates in insertion order are modelled as
  association lists with insertion at the tail.
-/

namespace TsDimm

/-- Model of the Python exceptions raised or caught by the code under study.
`cancelledError` models `asyncio.CancelledError`, which since Python 3.8
derives from `BaseException` rather than `Exception`. -/
inductive PyExc where
  | commandError (msg : String)
  | cancelledError
  | keyError (key : String)
  | valueError (msg : String)
  | runtimeError (msg : String)
  | attributeError (msg : String)
  | indexError
  deriving DecidableEq, Repr

/-- Whether the exception is a subclass of Python's `Exception` (and is hence
caught by an `except Exception` clause). `asyncio.CancelledError` is not: it
derives only from `BaseException`. -/
def PyExc.isException : PyExc → Bool
  | .cancelledError => false
  | _ => true

/-- A Python `float` value: `none` models NaN, `some q` an ordinary value
(modelled exactly as a rational). Only parsing, storage and `==` comparison
of floats occur in the code under study. -/
abbrev PyFloat := Option ℚ

/-- Python `==` on floats: NaN compares unequal to everything, including
itself. -/
def pyFloatEq : PyFloat → PyFloat → Bool
  | some a, some b => decide (a = b)
  | _, _ => false

/-!
Python string builtins are modelled on the character list of the string
(`String.data`), so that every operation reduces inside the kernel.
-/

/-- Python `str.lower()` (per-character; the protocol is ASCII). -/
def py_lower (s : String) : String := ⟨s.data.map Char.toLower⟩

/-- Python `str.upper()`. -/
def py_upper (s : String) : String := ⟨s.data.map Char.toUpper⟩

/-- Split a character list on a separator character, keeping empty pieces
(Python `str.split(sep)` for a one-character separator). -/
def split_chars (sep : Char) : List Char → List (List Char)
  | [] => [[]]
  | c :: rest =>
    let r := split_chars sep rest
    if c = sep then [] :: r
    else
      match r with
      | [] => [[c]]
      | p :: ps => (c :: p) :: ps

/-- Python `s.split(sep)` for a one-character separator. -/
def py_split (s : String) (sep : Char) : List String :=
  (split_chars sep s.data).map fun cs => ⟨cs⟩

/-- The first whitespace-delimited token of a string — `s.split()[0]` in
Python — with `none` when `s.split()` is empty (all-whitespace `s`). -/
def py_first_word (s : String) : Option String :=
  match s.data.dropWhile Char.isWhitespace with
  | [] => none
  | c :: rest => some ⟨(c :: rest).takeWhile fun ch => ch.isWhitespace = false⟩

/-- Python `str.strip()`. -/
def py_strip (s : String) : String :=
  ⟨((s.data.dropWhile Char.isWhitespace).reverse.dropWhile Char.isWhitespace).reverse⟩

/-- Python `s[0] == c` for a nonempty string. -/
def py_head_is (s : String) (c : Char) : Bool := s.data.head? = some c

/-- Python `s[-1] == c` for a nonempty string. -/
def py_last_is (s : String) (c : Char) : Bool := s.data.getLast? = some c

/-- Python `s[1:-1]`: every character except the first and the last. -/
def py_strip_ends (s : String) : String := ⟨(s.data.drop 1).dropLast⟩

/-- Python `str.partition(sep)` for a one-character separator: the part
before the first occurrence and the part after it (`none` when the
separator does not occur). -/
def partition_chars (sep : Char) : List Char → List Char × Option (List Char)
  | [] => ([], none)
  | c :: rest =>
    if c = sep then ([], some rest)
    else
      let r := partition_chars sep rest
      (c :: r.1, r.2)

/-- Python `str.partition(sep)` projected to the before/after pair (the
after part is empty when the separator does not occur). -/
def py_partition (s : String) (sep : Char) : String × String :=
  let r := partition_chars sep s.data
  (⟨r.1⟩, ⟨r.2.getD []⟩)

/-- Decimal digit accumulation for the model of Python's `int` builtin. -/
def digits_to_nat (acc : Nat) : List Char → Option Nat
  | [] => some acc
  | c :: rest =>
    if c.isDigit then digits_to_nat (acc * 10 + (c.toNat - 48)) rest else none

/-- A model of Python's `int` builtin restricted to optionally-signed
decimal numerals; `none` models `ValueError`. (Python also accepts
surrounding whitespace, a plus sign and underscores; no protocol value
uses those.) -/
def py_int_of_string (s : String) : Option Int :=
  match s.data with
  | [] => none
  | c :: rest =>
    if c = '-' then
      match rest with
      | [] => none
      | _ => (digits_to_nat 0 rest).map fun n => -(n : Int)
    else (digits_to_nat 0 (c :: rest)).map fun n => (n : Int)

/-- The `AstelcoCommand.data` dict: variable name to `(isok, value)`, where
`value = none` models Python `None` (written for a NULL reply). -/
abbrev CmdData := List (String × (Bool × Option String))

/-- Lookup in an association list (first match), as Python dict read. -/
def lookupAssoc (l : List (String × α)) (k : String) : Option α :=
  (l.find? fun p => p.1 == k).map (·.2)

/-- Python dict write: replace the value of an existing key in place (keys
are unique in every dict modelled here), or append a new entry at the
end (insertion order). -/
def writeAssoc (l : List (String × α)) (k : String) (v : α) : List (String × α) :=
  match l with
  | [] => [(k, v)]
  | p :: rest => if p.1 == k then (k, v) :: rest else p :: writeAssoc rest k v

deriving instance DecidableEq for Except

/-- The completion state of a command's `done_task` (an `asyncio.Future`):
`none` while pending; `some (.ok ())` after `set_result(None)`;
`some (.error e)` after `set_exception(e)`. -/
abbrev DoneTask := Option (Except PyExc Unit)

/-- `AstelcoCommand` of `astelco_dimm.py` (identical in
`open_tpl_connection.py`): one outstanding protocol transaction. The `id`
comes from the class-level `index_generator`; `done_task` is created pending.
The unused bookkeeping attributes (`events`, `dtype`, `status`, `allstatus`)
are omitted; `replies` and `data` start empty. -/
structure AstelcoCommand where
  id : Nat
  name : String
  arg : String
  done_task : DoneTask := none
  replies : List String := []
  data : CmdData := []
  deriving DecidableEq, Repr

/-- `AstelcoCommand.format`: the wire form of the command. -/
def AstelcoCommand.format (cmd : AstelcoCommand) : String :=
  toString cmd.id ++ " " ++ cmd.name ++ " " ++ cmd.arg

/-- `AstelcoCommand.get_value`: look up `self.data[name]` (a missing key
raises `KeyError`); if the entry is not ok, or the stored value is `None`
(NULL reply), return `bad_value`; otherwise apply the conversion `dtype`,
which itself may raise (for example `float` on a non-numeric string). -/
def AstelcoCommand.get_value (cmd : AstelcoCommand) (name : String)
    (dtype : String → Except PyExc α) (bad_value : α) : Except PyExc α :=
  match lookupAssoc cmd.data name with
  | none => .error (.keyError name)
  | some (isok, strvalue_or_none) =>
    if isok = false then .ok bad_value
    else
      match strvalue_or_none with
      | none => .ok bad_value
      | some strvalue => dtype strvalue

/-- `AstelcoCommand.get_float`: `get_value` with `dtype=float` and
`bad_value=math.nan`. The `float` builtin is passed in as
`float_of_string`. -/
def AstelcoCommand.get_float (cmd : AstelcoCommand)
    (float_of_string : String → Except PyExc PyFloat) (name : String) :
    Except PyExc PyFloat :=
  cmd.get_value name float_of_string none

/-- `AstelcoCommand.get_int`: `get_value` with `dtype=int` and a default
`bad_value` of 0. The `int` builtin is passed in as `int_of_string`. -/
def AstelcoCommand.get_int (cmd : AstelcoCommand)
    (int_of_string : String → Except PyExc Int) (name : String)
    (bad_value : Int := 0) : Except PyExc Int :=
  cmd.get_value name int_of_string bad_value

/-- `AstelcoDIMM.handle_command` / `OpenTplConnection.handle_command`:
handle a `COMMAND state` reply for a (non-None) command. On FAILED, resolve
the future with `CommandError(message)` unless it is already done, in which
case only a warning is logged; on COMPLETE, resolve it with result `None`
under the same guard; all other states are ignored. Returns the updated
command and the list of warnings logged. -/
def handle_command (command : AstelcoCommand) (state message : String) :
    AstelcoCommand × List String :=
  if state = "FAILED" then
    match command.done_task with
    | none =>
      ({ command with done_task := some (.error (.commandError message)) }, [])
    | some _ =>
      (command, ["Cannot set " ++ command.format ++ " to error; it already finished"])
  else if state = "COMPLETE" then
    match command.done_task with
    | none => ({ command with done_task := some (.ok ()) }, [])
    | some _ =>
      (command, ["Cannot set " ++ command.format ++ " to error; it already finished"])
  else
    (command, [])

/-- `handle_data_error`: a DATA ERROR reply records the variable as failed,
`command.data[name] = (False, error)`. -/
def handle_data_error (command : AstelcoCommand) (name error : String) :
    AstelcoCommand :=
  { command with data := writeAssoc command.data name (false, some error) }

/-- `handle_data_ok`: a DATA OK reply records a successful SET,
`command.data[name] = (True, "")`. -/
def handle_data_ok (command : AstelcoCommand) (name : String) :
    AstelcoCommand :=
  { command with data := writeAssoc command.data name (true, some "") }

/-- The in-flight registry `self.running_commands`: Python dict of command id
to command, iterated in insertion order. -/
abbrev Registry := List (Nat × AstelcoCommand)

/-- `self.cmd_max_size = 100` (set in `__init__` of both `AstelcoDIMM` and
`OpenTplConnection`). -/
def cmd_max_size : Nat := 100

/-- The registry-mutating part of `run_command` (identical in
`astelco_dimm.py` and `open_tpl_connection.py`): raise `RuntimeError` if not
connected; otherwise create a fresh `AstelcoCommand` with the next generator
id and insert it into `running_commands`. The subsequent
`write_cmdstr`/`await done_task` steps do not modify the registry, so the
returned registry is its state right after the insertion. -/
def run_command (connected : Bool) (running_commands : Registry)
    (next_id : Nat) (name arg : String) : Except PyExc Registry :=
  if connected = false then .error (.runtimeError "Not connected")
  else .ok (running_commands ++ [(next_id, { id := next_id, name := name, arg := arg })])

/-- Body of the drain in the `finally` block of `reply_loop`: a command that
is not done has its future resolved with `asyncio.CancelledError()`; a
command that is already done is left untouched. -/
def cancel_pending (command : AstelcoCommand) : AstelcoCommand :=
  match command.done_task with
  | none => { command with done_task := some (.error .cancelledError) }
  | some _ => command

/-- The `finally` block of `reply_loop` (both clients): pop every entry from
`running_commands` and force-resolve it if still pending. Runs on every exit
of the loop (cancellation, end of stream, connection reset, any other
exception). Returns the registry afterwards (drained to empty) and the
commands as they stand after the drain. -/
def reply_loop_finally : Registry → Registry × List AstelcoCommand
  | [] => ([], [])
  | (_, command) :: rest =>
    let r := reply_loop_finally rest
    (r.1, cancel_pending command :: r.2)

/-- `BadDataReplies` (identical in `astelco_dimm.py` and
`open_tpl_connection.py`): first-word tokens of a DATA INLINE value that
indicate the data could not be retrieved. -/
def BadDataReplies : List String :=
  ["BUSY", "DENIED", "DIMENSION", "FAILED", "INVALID", "LOCKEDBY", "TYPE", "UNKNOWN"]

/-- The value-classification performed by `handle_data_inline` (identical in
both clients) on the `value` captured from a `DATA INLINE name=value` reply:

* `value.split()[0]` raises `IndexError` when the value is all whitespace
  (cannot happen for replies, which are stripped before matching and carry
  the value at the end of the line);
* if the first word is in `BadDataReplies`, record `(False, value)` and warn;
* otherwise, if the first word is `NULL`, record `(True, None)`;
* otherwise, if the first character of the value is a double quote, record
  `(True, value[1:-1])` — the first and last characters are removed;
* otherwise record `(True, value)`.

The returned pair is what is written to `command.data[name]`. -/
def handle_data_inline_value (value : String) : Except PyExc (Bool × Option String) :=
  match py_first_word value with
  | none => .error .indexError
  | some first_word =>
    if first_word ∈ BadDataReplies then
      .ok (false, some value)
    else
      if first_word = "NULL" then .ok (true, none)
      else if py_head_is value '"' then .ok (true, some (py_strip_ends value))
      else .ok (true, some value)

/-- `handle_data_inline` itself: classify the value and write the result into
`command.data[name]` (on `IndexError` the reply loop catches and logs, and
the command is left unchanged). -/
def handle_data_inline (command : AstelcoCommand) (name value : String) :
    AstelcoCommand :=
  match handle_data_inline_value value with
  | .error _ => command
  | .ok entry => { command with data := writeAssoc command.data name entry }

/-- The claim's reading of the DATA INLINE value classification, following
its words: the failed-token clause as in the code, but the NULL clause reads
"if the value IS the literal token NULL", and the quote clause strips the
surrounding double quotes when present. Used to compare the claim against
`handle_data_inline_value`. -/
def claimed_data_inline_value (value : String) : Except PyExc (Bool × Option String) :=
  match py_first_word value with
  | none => .error .indexError
  | some first_word =>
    if first_word ∈ BadDataReplies then
      .ok (false, some value)
    else
      if value = "NULL" then .ok (true, none)
      else if py_head_is value '"' then
        .ok (true, some (if py_last_is value '"' ∧ 2 ≤ value.data.length then
          py_strip_ends value else value))
      else .ok (true, some value)

/-- The `DIMMStatus` dict of `base_dimm.py`: NOTSET=0, INITIALIZED=2,
RUNNING=4, ERROR=8 (bit flags). Modelled as a total map over the four keys
used by the code. -/
def DIMMStatus (key : String) : Nat :=
  if key = "NOTSET" then 0
  else if key = "INITIALIZED" then 2
  else if key = "RUNNING" then 4
  else 8

/-- The `self.status` dict of `BaseDIMM` as used by `AstelcoDIMM.status_loop`
(the untouched `hrnum` key is carried along). -/
structure StatusDict where
  status : Nat
  ra : PyFloat
  dec : PyFloat
  altitude : PyFloat
  azimuth : PyFloat
  hrnum : Int := 0
  deriving DecidableEq, Repr

/-- One successful pass of the body of `AstelcoDIMM.status_loop`, applied to
the command returned by the batched
`GET AMEBA.MODE;SCOPE.RA;SCOPE.DEC;SCOPE.ALT;SCOPE.AZ`:

* `ameba_mode = status_cmd.get_value("AMEBA.MODE", dtype=str, bad_value="")`;
* the four scope fields are read with `get_float` and stored;
* if `ameba_mode != "0"` the status field is set to RUNNING — there is no
  else branch, so on `"0"` the status field keeps its previous value.

An exception anywhere in the body is not handled inside the loop: it
propagates to the `except` clause, which sets status to ERROR and ends the
loop; this function models an iteration that runs to completion. -/
def status_loop_iteration (float_of_string : String → Except PyExc PyFloat)
    (st : StatusDict) (status_cmd : AstelcoCommand) : Except PyExc StatusDict := do
  let ameba_mode ← status_cmd.get_value "AMEBA.MODE" (fun s => .ok s) ""
  let ra ← status_cmd.get_float float_of_string "SCOPE.RA"
  let st := { st with ra := ra }
  let dec ← status_cmd.get_float float_of_string "SCOPE.DEC"
  let st := { st with dec := dec }
  let altitude ← status_cmd.get_float float_of_string "SCOPE.ALT"
  let st := { st with altitude := altitude }
  let azimuth ← status_cmd.get_float float_of_string "SCOPE.AZ"
  let st := { st with azimuth := azimuth }
  if ameba_mode ≠ "0" then
    return { st with status := DIMMStatus "RUNNING" }
  else
    return st

/-- The measurement dict assembled by `AstelcoDIMM.get_measurement`, with the
same fields and constants. -/
structure Measurement where
  hrNum : Int
  timestamp : PyFloat
  secz : PyFloat
  fwhmx : Int
  fwhmy : Int
  fwhm : PyFloat
  r0 : Int
  nimg : Int
  dx : PyFloat
  dy : PyFloat
  fluxL : PyFloat
  scintL : Int
  strehlL : PyFloat
  fluxR : PyFloat
  scintR : Int
  strehlR : PyFloat
  flux : PyFloat
  deriving DecidableEq, Repr

/-- The effect of the `except Exception` clause wrapped around the body of
`get_measurement`: an exception that derives from `Exception` is logged and
the function falls through, returning `None`; any other exception
(`asyncio.CancelledError` in particular) propagates to the caller. -/
def py_catch_exception (r : Except PyExc (Option Measurement)) :
    Except PyExc (Option Measurement) :=
  match r with
  | .error e => if e.isException then .ok none else .error e
  | .ok v => .ok v

/-- `AstelcoDIMM.get_measurement`. The outcomes of the two awaited
`run_command` calls are passed in: `timestamp_result` for
`GET DIMM.TIMESTAMP` and `seeing_result` for the batched seeing GET, each
either the resolved command or the exception raised by the await (a
`CommandError` from a COMMAND FAILED reply, or `asyncio.CancelledError` when
the reply loop's teardown force-failed the command on connection loss).

Faithful details: `prev_timestamp` is a local variable initialised to `0.0`
on every call, so the `timestamp == prev_timestamp` guard only fires when
the instrument reports timestamp 0.0; the later `prev_timestamp = timestamp`
assignment is a dead store (the local is never read again). The whole body
is wrapped in `except Exception`, modelled by `py_catch_exception`. -/
def get_measurement (float_of_string : String → Except PyExc PyFloat)
    (timestamp_result seeing_result : Except PyExc AstelcoCommand) :
    Except PyExc (Option Measurement) :=
  py_catch_exception (do
    let prev_timestamp : PyFloat := some 0
    let timestamp_cmd ← timestamp_result
    let timestamp ← timestamp_cmd.get_float float_of_string "DIMM.TIMESTAMP"
    if pyFloatEq timestamp prev_timestamp then
      return none
    let seeing_cmd ← seeing_result
    let secz ← seeing_cmd.get_float float_of_string "DIMM.AIRMASS"
    let fwhm ← seeing_cmd.get_float float_of_string "DIMM.SEEING"
    let fluxL ← seeing_cmd.get_float float_of_string "DIMM.FLUX_LEFT"
    let strehlL ← seeing_cmd.get_float float_of_string "DIMM.STREHL_LEFT"
    let fluxR ← seeing_cmd.get_float float_of_string "DIMM.FLUX_RIGHT"
    let strehlR ← seeing_cmd.get_float float_of_string "DIMM.STREHL_RIGHT"
    return some {
      hrNum := 0, timestamp := timestamp, secz := secz, fwhmx := -1, fwhmy := -1,
      fwhm := fwhm, r0 := -1, nimg := 1, dx := some 0, dy := some 0,
      fluxL := fluxL, scintL := 0, strehlL := strehlL, fluxR := fluxR,
      scintR := 0, strehlR := strehlR, flux := some 0 })

/-- A scalar value in the mock server's variable tree
(`mock_astelco_dimm.py`). A Python float object is represented by its
canonical repr string (the string produced when the value is formatted into
a reply); an `enum.IntEnum` value carries the list of member values of its
class, which `field_type(int(value_str))` validates against. -/
inductive PyValue where
  | vstr (s : String)
  | vfloat (r : String)
  | vint (n : Int)
  | venum (members : List Int) (n : Int)
  deriving DecidableEq, Repr

/-- Kind of a submodule: `scopeStatus` is `ScopeStatusSubmodule`, which
overrides `set_field` (only the write-only pseudo-field `clear` is accepted
and it clears `list`); every other submodule uses `BaseModule.set_field`. -/
inductive SubKind where
  | normal
  | scopeStatus
  deriving DecidableEq, Repr

/-- A submodule (for example `SERVICE`, `AMEBA.MANUAL`, `SCOPE.STATUS`):
its `_settable_fields` and its scalar attributes.

Note on aliasing: in the Python source the submodule instances are class
attributes (one `ServiceSubmodule()` shared by every top-level module); this
model gives each module its own copy. No claim under study depends on the
sharing. -/
structure SubModule where
  kind : SubKind := .normal
  settable : List String := []
  attrs : List (String × PyValue)
  deriving DecidableEq, Repr

/-- An attribute of a top-level module: either a scalar or a submodule. -/
inductive ModAttr where
  | leaf (v : PyValue)
  | sub (m : SubModule)
  deriving DecidableEq, Repr

/-- A top-level module (AMEBA, DIMM, SCOPE, METEO, WEATHER, SKY). -/
structure Module where
  settable : List String := []
  attrs : List (String × ModAttr)
  deriving DecidableEq, Repr

/-- The mutable state of `MockAstelcoDIMM` relevant to GET/SET handling. -/
structure MockState where
  authenticated : Bool
  modules : List (String × Module)
  deriving DecidableEq, Repr

/-- `self.module_names`: the modules GET and SET may access. -/
def module_names : List String := ["ameba", "dimm", "scope", "meteo", "weather", "sky"]

/-- `BaseModule.set_field` applied to one scalar field: dispatch on
`field_type = type(getattr(self, fieldname))`.

* `str` fields: `value_str` must start and end with a double quote
  (`value_str[0]` on an empty string raises `IndexError`), and the stored
  value is `value_str[1:-1]`;
* `enum.IntEnum` fields: `field_type(int(value_str))` — `int_of_string`
  models the `int` builtin (`none` models `ValueError`), and the result must
  be a member of the enum class;
* `int` fields: `int(value_str)` likewise;
* `float` fields: `float(value_str)` — `float_repr_of_string` models the
  `float` builtin composed with the repr used when the value is later
  formatted into a reply (`none` models `ValueError`). -/
def set_scalar_field (int_of_string : String → Option Int)
    (float_repr_of_string : String → Option String)
    (current : PyValue) (value_str : String) : Except PyExc PyValue :=
  match current with
  | .vstr _ =>
    if value_str = "" then .error .indexError
    else if py_head_is value_str '"' = false ∨ py_last_is value_str '"' = false then
      .error (.valueError "All strings must be enclosed in double quotes")
    else .ok (.vstr (py_strip_ends value_str))
  | .venum members _ =>
    match int_of_string value_str with
    | none => .error (.valueError ("invalid literal for int: " ++ value_str))
    | some n =>
      if n ∈ members then .ok (.venum members n)
      else .error (.valueError (toString n ++ " is not a valid member"))
  | .vint _ =>
    match int_of_string value_str with
    | none => .error (.valueError ("invalid literal for int: " ++ value_str))
    | some n => .ok (.vint n)
  | .vfloat _ =>
    match float_repr_of_string value_str with
    | none => .error (.valueError ("could not convert string to float: " ++ value_str))
    | some r => .ok (.vfloat r)

/-- `BaseModule.set_field` on a submodule (or `ScopeStatusSubmodule`'s
override): the `_settable_fields` gate first — a name that is neither
settable nor an existing attribute reports "does not exist", a non-settable
existing attribute reports "is read-only"; then the typed scalar update. -/
def SubModule.set_field (m : SubModule) (int_of_string : String → Option Int)
    (float_repr_of_string : String → Option String)
    (fieldname value_str : String) : Except PyExc SubModule :=
  match m.kind with
  | .scopeStatus =>
    if fieldname ≠ "clear" then
      .error (.runtimeError ("field " ++ fieldname ++ " does not exist or is read-only"))
    else .ok { m with attrs := writeAssoc m.attrs "list" (.vstr "") }
  | .normal =>
    if (m.settable.contains fieldname) = false then
      match lookupAssoc m.attrs fieldname with
      | none => .error (.runtimeError ("field " ++ fieldname ++ " does not exist"))
      | some _ => .error (.runtimeError ("field " ++ fieldname ++ " is read-only"))
    else
      match lookupAssoc m.attrs fieldname with
      | none => .error (.attributeError fieldname)
      | some current =>
        (set_scalar_field int_of_string float_repr_of_string current value_str).map
          fun v => { m with attrs := writeAssoc m.attrs fieldname v }

/-- `BaseModule.set_field` on a top-level module. A settable field is always
a scalar in the tree; a non-settable name that resolves to a submodule is
reported read-only, like any other existing attribute. -/
def Module.set_field (m : Module) (int_of_string : String → Option Int)
    (float_repr_of_string : String → Option String)
    (fieldname value_str : String) : Except PyExc Module :=
  if (m.settable.contains fieldname) = false then
    match lookupAssoc m.attrs fieldname with
    | none => .error (.runtimeError ("field " ++ fieldname ++ " does not exist"))
    | some _ => .error (.runtimeError ("field " ++ fieldname ++ " is read-only"))
  else
    match lookupAssoc m.attrs fieldname with
    | none => .error (.attributeError fieldname)
    | some (.sub _) => .error (.valueError fieldname)
    | some (.leaf current) =>
      (set_scalar_field int_of_string float_repr_of_string current value_str).map
        fun v => { m with attrs := writeAssoc m.attrs fieldname (.leaf v) }

/-- A Python object reached by `_hierarchical_get_attr`. -/
inductive PyObj where
  | leaf (v : PyValue)
  | module (m : Module)
  | sub (m : SubModule)
  deriving DecidableEq, Repr

/-- Continue an attribute walk from a scalar: any further attribute access
raises `AttributeError` (Python numeric attributes such as `real` are not
modelled; no protocol variable name reaches them). -/
def walk_value (v : PyValue) : List String → Except PyExc PyObj
  | [] => .ok (.leaf v)
  | a :: _ => .error (.attributeError a)

/-- Continue an attribute walk from a submodule. -/
def walk_sub (m : SubModule) : List String → Except PyExc PyObj
  | [] => .ok (.sub m)
  | a :: rest =>
    match lookupAssoc m.attrs a with
    | none => .error (.attributeError a)
    | some v => walk_value v rest

/-- Continue an attribute walk from a top-level module. -/
def walk_module (m : Module) : List String → Except PyExc PyObj
  | [] => .ok (.module m)
  | a :: rest =>
    match lookupAssoc m.attrs a with
    | none => .error (.attributeError a)
    | some (.leaf v) => walk_value v rest
    | some (.sub s) => walk_sub s rest

/-- `MockAstelcoDIMM._hierarchical_get_attr` without the final string
quoting: `attr_names[0]` must be a valid module name (`attr_names[0]` on an
empty list raises `IndexError`), then `getattr` is applied along the
chain. -/
def hier_get_attr (st : MockState) (attr_names : List String) :
    Except PyExc PyObj :=
  match attr_names with
  | [] => .error .indexError
  | m0 :: rest =>
    if (module_names.contains m0) = false then
      .error (.commandError (m0 ++ " not a valid module name"))
    else
      match lookupAssoc st.modules m0 with
      | none => .error (.attributeError m0)
      | some m => walk_module m rest

/-- `MockAstelcoDIMM.get_field`: lower-case the dotted name, walk the tree,
and surround a string value with double quotes (the final
`isinstance(attr, str)` branch of `_hierarchical_get_attr`). -/
def MockState.get_field (st : MockState) (varname : String) :
    Except PyExc PyObj := do
  let obj ← hier_get_attr st (py_split (py_lower varname) '.')
  match obj with
  | .leaf (.vstr s) => .ok (.leaf (.vstr ("\"" ++ s ++ "\"")))
  | o => .ok o

/-- `MockAstelcoDIMM.set_field`: split the lowered dotted name into the
module path (all but the last component) and the field name (the last);
resolve the module path with `_hierarchical_get_attr`; call `set_field` on
the result (an `AttributeError` if it is not a module object). The updated
tree is written back along the same path (the Python code mutates the
resolved object in place). -/
def MockState.set_field (st : MockState) (int_of_string : String → Option Int)
    (float_repr_of_string : String → Option String)
    (varname value_str : String) : Except PyExc MockState :=
  let attr_names := py_split (py_lower varname) '.'
  let field_name := attr_names.getLast?.getD ""
  match attr_names.dropLast with
  | [] => .error .indexError
  | m0 :: rest =>
    if (module_names.contains m0) = false then
      .error (.commandError (m0 ++ " not a valid module name"))
    else
      match lookupAssoc st.modules m0 with
      | none => .error (.attributeError m0)
      | some m =>
        match rest with
        | [] =>
          (m.set_field int_of_string float_repr_of_string field_name value_str).map
            fun m2 => { st with modules := writeAssoc st.modules m0 m2 }
        | a :: rest2 =>
          match lookupAssoc m.attrs a with
          | none => .error (.attributeError a)
          | some (.leaf _) => .error (.attributeError "set_field")
          | some (.sub s) =>
            match rest2 with
            | [] =>
              (s.set_field int_of_string float_repr_of_string field_name value_str).map
                fun s2 =>
                  let m2 : Module := { m with attrs := writeAssoc m.attrs a (.sub s2) }
                  { st with modules := writeAssoc st.modules m0 m2 }
            | a2 :: _ =>
              match lookupAssoc s.attrs a2 with
              | none => .error (.attributeError a2)
              | some _ => .error (.attributeError "set_field")

/-- `format_message`: empty stays empty, otherwise prepend a space and
surround with double quotes. -/
def format_message (msg : String) : String :=
  if msg = "" then "" else " \"" ++ msg ++ "\""

/-- `write_command_state`: one `COMMAND` reply line. -/
def write_command_state (cmdid state message : String) : String :=
  cmdid ++ " COMMAND " ++ state ++ format_message message

/-- `write_not_authenticated`: the two reply lines written when a command is
refused for lack of authentication. -/
def write_not_authenticated (cmdid : String) : List String :=
  [write_command_state cmdid "ERROR UNAUTHENTICATED" "",
   write_command_state cmdid "FAILED" ""]

/-- `write_data_inline`: note the variable name is upper-cased. -/
def write_data_inline (cmdid varname value : String) : String :=
  cmdid ++ " DATA INLINE " ++ py_upper varname ++ "=" ++ value

/-- `write_data_error` with its fixed shape (the name upper-cased, the word
FAILED, the error code, then the optional quoted message). -/
def write_data_error (cmdid varname : String) (error_code : Nat) (message : String) :
    String :=
  cmdid ++ " DATA ERROR " ++ py_upper varname ++ " FAILED " ++ toString error_code
    ++ format_message message

/-- `write_data_ok` (the name is NOT upper-cased here, unlike the other two
writers). -/
def write_data_ok (cmdid varname : String) : String :=
  cmdid ++ " DATA OK " ++ varname

/-- `str(e)` for the modelled exceptions, as interpolated into DATA ERROR
messages. The texts of the runtime-generated messages (`AttributeError`,
`IndexError`) are approximations; no theorem depends on them. -/
def exc_message : PyExc → String
  | .commandError m => m
  | .valueError m => m
  | .runtimeError m => m
  | .attributeError m => "no attribute " ++ m
  | .keyError k => k
  | .indexError => "list index out of range"
  | .cancelledError => ""

/-- `re.split("; *", arg)`: split on each semicolon and drop the spaces
immediately following it. -/
def py_re_split_semi (arg : String) : List String :=
  match split_chars ';' arg.data with
  | [] => []
  | first :: rest =>
    (⟨first⟩ : String) :: rest.map fun cs => (⟨cs.dropWhile (· = ' ')⟩ : String)

/-- The `!TYPE` property: `VariableType` of the value — `IntEnum` values
report INT (1), strings STRING (3), ints INT (1), floats FLOAT (2), and
anything else (a module object) NULL (0). -/
def var_type_code : PyObj → Int
  | .leaf (.vstr _) => 3
  | .leaf (.vint _) => 1
  | .leaf (.vfloat _) => 2
  | .leaf (.venum _ _) => 1
  | .module _ => 0
  | .sub _ => 0

/-- Rendering of a value into a `DATA INLINE` reply (the f-string
`"...{value}"`): strings arrive already quote-wrapped from `get_field`;
`IntEnum` values format as their integer (Python >= 3.11); a module object
formats as its default object repr, abbreviated here. -/
def render_py_obj : PyObj → String
  | .leaf (.vstr s) => s
  | .leaf (.vfloat r) => r
  | .leaf (.vint n) => toString n
  | .leaf (.venum _ n) => toString n
  | .module _ => "<module object>"
  | .sub _ => "<module object>"

/-- The body of the per-variable loop of `do_get` for one `name[!property]`
sub-request: fetch the value (exceptions become a `DATA ERROR` line with
code 15), then dispatch on the lowered property: empty property writes the
`DATA INLINE` value; `type` writes the type code under the full
`name!property` string; any other property is a `DATA ERROR`. -/
def get_reply_line (st : MockState) (cmdid varname_property : String) : String :=
  let p := py_partition varname_property '!'
  match st.get_field p.1 with
  | .error e => write_data_error cmdid p.1 15 (exc_message e)
  | .ok value =>
    if py_lower p.2 = "" then
      write_data_inline cmdid p.1 (render_py_obj value)
    else if py_lower p.2 = "type" then
      write_data_inline cmdid varname_property (toString (var_type_code value))
    else
      write_data_error cmdid p.1 15 ("unsupported property " ++ p.2)

/-- `MockAstelcoDIMM.do_get`: if not authenticated, exactly the two
not-authenticated lines and nothing else; otherwise `COMMAND OK`, one line
per `;`-separated sub-request, then `COMMAND COMPLETE`. GET never modifies
the variable tree, which the return type (reply lines only) makes
explicit. -/
def do_get (st : MockState) (cmdid arg : String) : List String :=
  if st.authenticated = false then
    write_not_authenticated cmdid
  else
    write_command_state cmdid "OK" ""
      :: ((py_re_split_semi arg).map (get_reply_line st cmdid))
      ++ [write_command_state cmdid "COMPLETE" ""]

/-- Python `"=".split` unpacking `varname, value_str = varname_value.split("=")`:
exactly two parts or a `ValueError` (which, being outside the per-field
`try`, escapes `do_set` to the command loop). -/
def py_split_eq (s : String) : Option (String × String) :=
  match py_split s '=' with
  | [a, b] => some (a, b)
  | _ => none

/-- The per-field loop of `do_set` over the `;`-separated `name=value`
pairs. Each pair is unpacked (a malformed pair raises out of the loop, with
the lines already written kept), the value is stripped, and `set_field`
either succeeds (a `DATA OK` line) or fails (a `DATA ERROR` line with code
15); after the last pair the `COMMAND COMPLETE` line is written. Returns
the final state, the lines written, and the escaped exception if any. -/
def set_field_loop (int_of_string : String → Option Int)
    (float_repr_of_string : String → Option String)
    (st : MockState) (cmdid : String) :
    List String → MockState × List String × Option PyExc
  | [] => (st, [write_command_state cmdid "COMPLETE" ""], none)
  | item :: rest =>
    match py_split_eq item with
    | none => (st, [], some (.valueError "unpack"))
    | some (varname, value_str_raw) =>
      let value_str := py_strip value_str_raw
      match st.set_field int_of_string float_repr_of_string varname value_str with
      | .ok st2 =>
        let r := set_field_loop int_of_string float_repr_of_string st2 cmdid rest
        (r.1, write_data_ok cmdid varname :: r.2.1, r.2.2)
      | .error e =>
        let r := set_field_loop int_of_string float_repr_of_string st cmdid rest
        (r.1, write_data_error cmdid varname 15 (exc_message e) :: r.2.1, r.2.2)

/-- `MockAstelcoDIMM.do_set`: if not authenticated, exactly the two
not-authenticated lines, no tree access; otherwise `COMMAND OK` then the
per-field loop. The automatic-operation loop start/cancel performed after a
completed SET touches only non-settable variables and is outside this
model. -/
def do_set (int_of_string : String → Option Int)
    (float_repr_of_string : String → Option String)
    (st : MockState) (cmdid arg : String) :
    MockState × List String × Option PyExc :=
  if st.authenticated = false then
    (st, write_not_authenticated cmdid, none)
  else
    let r := set_field_loop int_of_string float_repr_of_string st cmdid (py_split arg ';')
    (r.1, write_command_state cmdid "OK" "" :: r.2.1, r.2.2)

/-- How a scalar value read back by `get_field` is rendered into the
`DATA INLINE` line: the composition of the quote-wrapping in
`_hierarchical_get_attr` with `render_py_obj`. -/
def get_render (v : PyValue) : String :=
  match v with
  | .vstr s => "\"" ++ s ++ "\""
  | .vfloat r => r
  | .vint n => toString n
  | .venum _ n => toString n

/-- The round-trip hypothesis of the GET/SET claim: the lowered dotted
variable name resolves to a settable scalar field of the tree. Two shapes
occur in the mock's tree: `module.field` and `module.submodule.field` (the
submodule must use the generic `BaseModule.set_field`; the only name the
`scopeStatus` override accepts is the write-only pseudo-field `clear`,
which is not a variable of the tree). -/
inductive SettableScalar : MockState → List String → PyValue → Prop
  | mod {st : MockState} {m0 f : String} {m : Module} {cur : PyValue} :
      module_names.contains m0 = true →
      lookupAssoc st.modules m0 = some m →
      m.settable.contains f = true →
      lookupAssoc m.attrs f = some (.leaf cur) →
      SettableScalar st [m0, f] cur
  | sub {st : MockState} {m0 a f : String} {m : Module} {s : SubModule} {cur : PyValue} :
      module_names.contains m0 = true →
      lookupAssoc st.modules m0 = some m →
      lookupAssoc m.attrs a = some (.sub s) →
      s.kind = .normal →
      s.settable.contains f = true →
      lookupAssoc s.attrs f = some cur →
      SettableScalar st [m0, a, f] cur

/-- The state produced by a successful SET of the scalar at `path` to
`newv`: the tree with the one leaf overwritten (identity on shapes a
successful SET cannot produce). -/
def tree_update (st : MockState) : List String → PyValue → MockState
  | [m0, f], newv =>
    match lookupAssoc st.modules m0 with
    | some m =>
      let m2 : Module := { m with attrs := writeAssoc m.attrs f (.leaf newv) }
      { st with modules := writeAssoc st.modules m0 m2 }
    | none => st
  | [m0, a, f], newv =>
    match lookupAssoc st.modules m0 with
    | some m =>
      match lookupAssoc m.attrs a with
      | some (.sub s) =>
        let s2 : SubModule := { s with attrs := writeAssoc s.attrs f newv }
        let m2 : Module := { m with attrs := writeAssoc m.attrs a (.sub s2) }
        { st with modules := writeAssoc st.modules m0 m2 }
      | _ => st
    | none => st
  | _, _ => st

/-- `ServiceSubmodule`: `state`, `fail_state` and `control`, with only
`control` settable. (In the Python source one shared instance serves every
top-level module; see the aliasing note on `SubModule`.) -/
def service_submodule : SubModule :=
  { settable := ["control"],
    attrs := [("state", .venum [0, 1] 0), ("fail_state", .venum [0, 1] 0),
              ("control", .venum [0, 1, 2] 0)] }

/-- `AmebaManualSubmodule`. -/
def ameba_manual : SubModule :=
  { settable := ["name", "ra", "dec", "brightness", "color", "stellar_class"],
    attrs := [("name", .vstr ""), ("ra", .vfloat "0.0"), ("dec", .vfloat "0.0"),
              ("brightness", .vfloat "0.0"), ("color", .vfloat "0.0"),
              ("stellar_class", .vstr "G5III"),
              ("stellar_classfile", .vstr "aclassfile")] }

/-- `AmebaCurrentSubmodule` (nothing settable). -/
def ameba_current : SubModule :=
  { attrs := [("name", .vstr ""), ("ra", .vfloat "0.0"), ("dec", .vfloat "0.0"),
              ("brightness", .vfloat "0.0"), ("color", .vfloat "0.0"),
              ("stellar_classfile", .vstr "aclassfile"),
              ("start_time", .vfloat "0.0")] }

/-- `AmebaModule`: mode starts at `AmebaMode.AUTO` (1); only `mode` is
settable. `version` is `0x00010100`. -/
def ameba_module : Module :=
  { settable := ["mode"],
    attrs := [("version", .leaf (.vint 65792)), ("service", .sub service_submodule),
              ("manual", .sub ameba_manual), ("current", .sub ameba_current),
              ("mode", .leaf (.venum [0, 1, 2] 1)),
              ("state", .leaf (.venum [0, 1, 2, 3, 4, 5] 0)),
              ("sun_alt_condition", .leaf (.vfloat "0.0")),
              ("start_time", .leaf (.vfloat "0.0")),
              ("finish_time", .leaf (.vfloat "0.0"))] }

/-- `DIMMModule` (nothing settable). -/
def dimm_module : Module :=
  { attrs := [("version", .leaf (.vint 65792)), ("service", .sub service_submodule),
              ("seeing", .leaf (.vfloat "0.0")), ("seeing_lowfreq", .leaf (.vfloat "0.0")),
              ("flux_left", .leaf (.vfloat "0.0")), ("flux_right", .leaf (.vfloat "0.0")),
              ("flux_rms_left", .leaf (.vfloat "0.0")),
              ("flux_rms_right", .leaf (.vfloat "0.0")),
              ("airmass", .leaf (.vfloat "0.0")),
              ("strehl_left", .leaf (.vfloat "0.0")),
              ("strehl_right", .leaf (.vfloat "0.0")),
              ("timestamp", .leaf (.vfloat "0.0"))] }

/-- `ScopeModule`, with its `status` submodule using the `set_field`
override. -/
def scope_module : Module :=
  { attrs := [("version", .leaf (.vint 65792)), ("service", .sub service_submodule),
              ("status", .sub { kind := .scopeStatus, attrs := [("list", .vstr "")] }),
              ("ra", .leaf (.vfloat "0.0")), ("dec", .leaf (.vfloat "0.0")),
              ("az", .leaf (.vfloat "0.0")), ("alt", .leaf (.vfloat "0.0")),
              ("focus", .leaf (.vint 0)),
              ("motion_state", .leaf (.venum [-2, -1, 0, 1, 2] (-1))),
              ("power_state", .leaf (.venum [0, 1] 0))] }

/-- `MeteoModule` (only the inherited version and service). -/
def meteo_module : Module :=
  { attrs := [("version", .leaf (.vint 65792)), ("service", .sub service_submodule)] }

/-- `WeatherModule` (a plain `BaseModule`: no version or service). The
initial `wind` is `Config.WindLow * 1.1`; its exact float repr is
immaterial to the claims and abbreviated to `9.9` here. -/
def weather_module : Module :=
  { settable := ["temp_amb", "wind", "wind_dir", "rh", "temp_dew", "pressure", "rain"],
    attrs := [("temp_amb", .leaf (.vfloat "0.0")), ("wind", .leaf (.vfloat "9.9")),
              ("wind_dir", .leaf (.vfloat "0.0")), ("rh", .leaf (.vfloat "100.0")),
              ("temp_dew", .leaf (.vfloat "0.0")), ("pressure", .leaf (.vfloat "0.0")),
              ("rain", .leaf (.venum [0, 1] 1))] }

/-- `SkyModule`: status starts PRECIPTATING (3), temp at
`Config.TempStart + 1 = -19.0`. -/
def sky_module : Module :=
  { settable := ["status", "temp"],
    attrs := [("status", .leaf (.venum [0, 1, 2, 3] 3)),
              ("temp", .leaf (.vfloat "-19.0"))] }

/-- The initial variable tree of `MockAstelcoDIMM` (the `dome` module exists
as an attribute but is not in `module_names`, hence unreachable by GET/SET
and omitted). -/
def initial_modules : List (String × Module) :=
  [("ameba", ameba_module), ("dimm", dimm_module), ("scope", scope_module),
   ("meteo", meteo_module), ("weather", weather_module), ("sky", sky_module)]

/-- Python's `float` builtin (composed with value storage) on the literals
used by the concrete instances below; everything else raises `ValueError`.
A faithful restriction of CPython behaviour to these inputs. -/
def demo_float_of_string : String → Except PyExc PyFloat := fun s =>
  if s = "100.0" then .ok (some 100)
  else if s = "2.0" then .ok (some 2)
  else if s = "1.0" then .ok (some 1)
  else if s = "0.0" then .ok (some 0)
  else .error (.valueError ("could not convert string to float: " ++ s))

/-- Python's `float` builtin composed with repr, restricted to canonical
float literals used by the mock-server instances below. -/
def demo_float_repr_of_string : String → Option String := fun s =>
  if s = "0.0" ∨ s = "1.5" ∨ s = "-21.5" ∨ s = "100.0" then some s else none

/-- A command whose `GET DIMM.TIMESTAMP` reply reported 100.0 and which
completed successfully. -/
def demo_timestamp_cmd : AstelcoCommand :=
  { id := 1, name := "GET", arg := "DIMM.TIMESTAMP", done_task := some (.ok ()),
    data := [("DIMM.TIMESTAMP", (true, some "100.0"))] }

/-- A completed batched seeing GET with all six variables reported. -/
def demo_seeing_cmd : AstelcoCommand :=
  { id := 2, name := "GET",
    arg := "DIMM.SEEING;DIMM.AIRMASS;DIMM.FLUX_LEFT;DIMM.FLUX_RIGHT;DIMM.STREHL_LEFT;DIMM.STREHL_RIGHT",
    done_task := some (.ok ()),
    data := [("DIMM.SEEING", (true, some "2.0")), ("DIMM.AIRMASS", (true, some "1.0")),
             ("DIMM.FLUX_LEFT", (true, some "2.0")),
             ("DIMM.FLUX_RIGHT", (true, some "2.0")),
             ("DIMM.STREHL_LEFT", (true, some "2.0")),
             ("DIMM.STREHL_RIGHT", (true, some "2.0"))] }

/-- The measurement dict `get_measurement` assembles from
`demo_timestamp_cmd` and `demo_seeing_cmd`. -/
def demo_duplicate_measurement : Measurement :=
  { hrNum := 0, timestamp := some 100, secz := some 1, fwhmx := -1, fwhmy := -1,
    fwhm := some 2, r0 := -1, nimg := 1, dx := some 0, dy := some 0,
    fluxL := some 2, scintL := 0, strehlL := some 2,
    fluxR := some 2, scintR := 0, strehlR := some 2, flux := some 0 }

/-- A command that already finished successfully (for the double-resolution
scenario). -/
def demo_done_cmd : AstelcoCommand :=
  { id := 5, name := "GET", arg := "DIMM.TIMESTAMP", done_task := some (.ok ()) }

/-- A command still awaiting its terminal reply. -/
def demo_pending_cmd : AstelcoCommand :=
  { id := 6, name := "SET", arg := "SKY.TEMP=-25.0" }

/-- A registry holding one pending and one resolved command when the reply
loop exits. -/
def demo_registry : Registry := [(6, demo_pending_cmd), (5, demo_done_cmd)]

/-- A registry already holding `cmd_max_size` unresolved commands. -/
def full_registry : Registry :=
  (List.range cmd_max_size).map fun i => (i, { id := i, name := "GET", arg := "X" })

/-- The registry after one more `run_command` on `full_registry`. -/
def overflow_registry : Registry :=
  full_registry ++
    [(cmd_max_size, { id := cmd_max_size, name := "GET", arg := "DIMM.TIMESTAMP" })]

/-- The batched status GET with `AMEBA.MODE = "0"` (instrument off) and all
four scope variables present. -/
def demo_status_cmd : AstelcoCommand :=
  { id := 3, name := "GET", arg := "AMEBA.MODE;SCOPE.RA;SCOPE.DEC;SCOPE.ALT;SCOPE.AZ",
    done_task := some (.ok ()),
    data := [("AMEBA.MODE", (true, some "0")), ("SCOPE.RA", (true, some "1.0")),
             ("SCOPE.DEC", (true, some "1.0")), ("SCOPE.ALT", (true, some "1.0")),
             ("SCOPE.AZ", (true, some "1.0"))] }

/-- The same batched status GET with `AMEBA.MODE = "1"` (auto mode). -/
def demo_status_cmd_auto : AstelcoCommand :=
  { id := 4, name := "GET", arg := "AMEBA.MODE;SCOPE.RA;SCOPE.DEC;SCOPE.ALT;SCOPE.AZ",
    done_task := some (.ok ()),
    data := [("AMEBA.MODE", (true, some "1")), ("SCOPE.RA", (true, some "1.0")),
             ("SCOPE.DEC", (true, some "1.0")), ("SCOPE.ALT", (true, some "1.0")),
             ("SCOPE.AZ", (true, some "1.0"))] }

/-- A status snapshot that is currently RUNNING. -/
def demo_running_status : StatusDict :=
  { status := DIMMStatus "RUNNING", ra := some 0, dec := some 0,
    altitude := some 0, azimuth := some 0 }

/-- A status snapshot that is currently INITIALIZED. -/
def demo_initialized_status : StatusDict :=
  { status := DIMMStatus "INITIALIZED", ra := some 0, dec := some 0,
    altitude := some 0, azimuth := some 0 }

/-- The snapshot after one `status_loop` pass over `demo_status_cmd` from
`demo_running_status`: scope fields updated, status untouched. -/
def demo_status_after : StatusDict :=
  { status := DIMMStatus "RUNNING", ra := some 1, dec := some 1,
    altitude := some 1, azimuth := some 1 }

/-!
Helper lemmas (shared; not tied to any one claim).
-/

theorem format_message_empty : format_message "" = "" := rfl

theorem write_command_state_empty (cmdid state : String) :
    write_command_state cmdid state "" = cmdid ++ (" COMMAND " ++ state) := by
  unfold write_command_state
  rw [format_message_empty, String.append_empty, String.append_assoc]

theorem write_command_state_ok (cmdid : String) :
    write_command_state cmdid "OK" "" = cmdid ++ " COMMAND OK" := by
  rw [write_command_state_empty]
  have h : (" COMMAND " ++ "OK" : String) = " COMMAND OK" := by decide
  rw [h]

theorem write_command_state_complete (cmdid : String) :
    write_command_state cmdid "COMPLETE" "" = cmdid ++ " COMMAND COMPLETE" := by
  rw [write_command_state_empty]
  have h : (" COMMAND " ++ "COMPLETE" : String) = " COMMAND COMPLETE" := by decide
  rw [h]

theorem write_not_authenticated_lines (cmdid : String) :
    write_not_authenticated cmdid =
      [cmdid ++ " COMMAND ERROR UNAUTHENTICATED", cmdid ++ " COMMAND FAILED"] := by
  unfold write_not_authenticated
  rw [write_command_state_empty, write_command_state_empty]
  have h1 : (" COMMAND " ++ "ERROR UNAUTHENTICATED" : String)
      = " COMMAND ERROR UNAUTHENTICATED" := by decide
  have h2 : (" COMMAND " ++ "FAILED" : String) = " COMMAND FAILED" := by decide
  rw [h1, h2]

theorem lookupAssoc_writeAssoc_self {α : Type} (l : List (String × α)) (k : String)
    (v : α) : lookupAssoc (writeAssoc l k v) k = some v := by
  induction l with
  | nil => simp [writeAssoc, lookupAssoc, List.find?]
  | cons p rest ih =>
    by_cases h : p.1 == k
    · simp [writeAssoc, h, lookupAssoc, List.find?]
    · simp only [writeAssoc, h, if_neg]
      simpa [lookupAssoc, List.find?, h] using ih

theorem mock_get_field_leaf (st : MockState) (varname : String) (newv : PyValue)
    (h : hier_get_attr st (py_split (py_lower varname) '.') = .ok (.leaf newv)) :
    ∃ obj : PyObj, st.get_field varname = .ok obj
      ∧ render_py_obj obj = get_render newv := by
  unfold MockState.get_field
  rw [h]
  cases newv with
  | vstr s => exact ⟨.leaf (.vstr ("\"" ++ s ++ "\"")), rfl, rfl⟩
  | vfloat r => exact ⟨.leaf (.vfloat r), rfl, rfl⟩
  | vint n => exact ⟨.leaf (.vint n), rfl, rfl⟩
  | venum members n => exact ⟨.leaf (.venum members n), rfl, rfl⟩

theorem py_catch_exception_error_not_exception
    (r : Except PyExc (Option Measurement)) (e : PyExc)
    (h : py_catch_exception r = .error e) : e.isException = false := by
  unfold py_catch_exception at h
  cases r with
  | ok v => cases h
  | error e2 =>
    by_cases he : e2.isException
    · simp [he] at h
    · simp [he] at h
      rw [← h]
      simpa using he

/-!
Claim theorems.
-/

/-- C1 (code_bug demonstration): the timestamp de-duplication does not
persist across calls. `prev_timestamp` is a local initialised to `0.0` on
every call of `get_measurement`, so with the instrument reporting the same
`DIMM.TIMESTAMP = 100.0` on two successive calls, the second call — which
is this very evaluation, the function having no inter-call state — returns
a full duplicate measurement record instead of the `None` the claim
requires. (The dead store `prev_timestamp = timestamp` in the source shows
the intended cross-call comparison.) -/
theorem get_measurement_duplicate_on_unchanged_timestamp :
    get_measurement demo_float_of_string (.ok demo_timestamp_cmd) (.ok demo_seeing_cmd)
      = .ok (some demo_duplicate_measurement) ∧
    (Except.ok (some demo_duplicate_measurement) : Except PyExc (Option Measurement))
      ≠ .ok none :=
  ⟨by decide, by decide⟩

/-- C2 (counterexample): with `cmd_max_size` (=100) unresolved commands
already registered, `run_command` registers one more without evicting or
logging anything: the registry reaches 101 > `cmd_max_size` entries and the
oldest entry is still present, contradicting the claimed eviction
invariant. -/
theorem run_command_exceeds_cmd_max_size :
    run_command true full_registry cmd_max_size "GET" "DIMM.TIMESTAMP"
      = .ok overflow_registry ∧
    overflow_registry.length = cmd_max_size + 1 ∧
    cmd_max_size < overflow_registry.length ∧
    (0, ({ id := 0, name := "GET", arg := "X" } : AstelcoCommand)) ∈ overflow_registry := by
  refine ⟨by decide, by decide, by decide, by decide⟩

/-- C2 (amended): `run_command` inserts the new command into the registry
unconditionally whenever the connection is up; `cmd_max_size` is never
consulted, no oldest-entry eviction (or eviction logging) exists, every
pre-existing entry is retained, and the registry may therefore grow beyond
`cmd_max_size`. -/
theorem run_command_registers_unconditionally (connected : Bool) (reg : Registry)
    (next_id : Nat) (name arg : String) (h : connected = true) :
    run_command connected reg next_id name arg =
      .ok (reg ++ [(next_id, { id := next_id, name := name, arg := arg })]) ∧
    (reg ++ [(next_id, ({ id := next_id, name := name, arg := arg } : AstelcoCommand))]).length
      = reg.length + 1 ∧
    ∀ p ∈ reg, p ∈ reg ++ [(next_id, { id := next_id, name := name, arg := arg })] := by
  subst h
  exact ⟨rfl, by simp, fun p hp => List.mem_append_left _ hp⟩

/-- Witness for the amended C2 theorem at a concrete registry. -/
theorem run_command_registers_unconditionally_witness :
    run_command true demo_registry 7 "GET" "DIMM.TIMESTAMP" =
      .ok (demo_registry ++ [(7, { id := 7, name := "GET", arg := "DIMM.TIMESTAMP" })]) ∧
    (demo_registry ++
      [(7, ({ id := 7, name := "GET", arg := "DIMM.TIMESTAMP" } : AstelcoCommand))]).length
      = demo_registry.length + 1 := by
  have h := run_command_registers_unconditionally true demo_registry 7 "GET"
    "DIMM.TIMESTAMP" rfl
  exact ⟨h.1, h.2.1⟩

/-- C3: a `COMMAND FAILED` or `COMMAND COMPLETE` reply arriving for a
command whose future is already resolved leaves the command — and in
particular its first outcome — unchanged, and logs a warning; it does not
raise, and no reply can overwrite an earlier resolution
(`handle_command` is the only resolver in the dispatch loop). -/
theorem handle_command_second_resolution_noop (command : AstelcoCommand)
    (state message : String) (o : Except PyExc Unit)
    (h : command.done_task = some o) :
    (handle_command command state message).1 = command ∧
    (handle_command command state message).1.done_task = some o ∧
    ((state = "FAILED" ∨ state = "COMPLETE") →
      (handle_command command state message).2 ≠ []) := by
  unfold handle_command
  by_cases hf : state = "FAILED"
  · simp [hf, h]
  · by_cases hc : state = "COMPLETE"
    · simp [hf, hc, h]
    · simp [hf, hc, h]

/-- Witness for C3: a second (FAILED) resolution attempt on a command that
already completed successfully. -/
theorem handle_command_second_resolution_noop_witness :
    (handle_command demo_done_cmd "FAILED" "boom").1 = demo_done_cmd ∧
    (handle_command demo_done_cmd "FAILED" "boom").1.done_task = some (.ok ()) ∧
    (handle_command demo_done_cmd "FAILED" "boom").2 ≠ [] := by
  have h := handle_command_second_resolution_noop demo_done_cmd "FAILED" "boom"
    (.ok ()) (by decide)
  exact ⟨h.1, h.2.1, h.2.2 (Or.inl rfl)⟩

/-- C4: the `finally` drain of `reply_loop`, run on every exit of the loop
and from any registry state: afterwards the registry is empty, every
command that was still pending is resolved with `asyncio.CancelledError`,
every already-resolved command keeps its outcome, and no command is left
unresolved — so no caller awaiting `run_command` can hang after a
connection loss. -/
theorem reply_loop_finally_drains_and_cancels (reg : Registry) :
    (reply_loop_finally reg).1 = [] ∧
    (reply_loop_finally reg).2 = reg.map (fun p => cancel_pending p.2) ∧
    (∀ p ∈ reg, (cancel_pending p.2).done_task ≠ none) ∧
    (∀ p ∈ reg, p.2.done_task = none →
      (cancel_pending p.2).done_task = some (.error .cancelledError)) ∧
    (∀ p ∈ reg, ∀ o, p.2.done_task = some o →
      (cancel_pending p.2).done_task = some o) := by
  refine ⟨?_, ?_, ?_, ?_, ?_⟩
  · induction reg with
    | nil => rfl
    | cons hd tl ih => simpa [reply_loop_finally] using ih
  · induction reg with
    | nil => rfl
    | cons hd tl ih => simp [reply_loop_finally, ih]
  · intro p _
    unfold cancel_pending
    cases hdt : p.2.done_task <;> simp [hdt]
  · intro p _ h
    unfold cancel_pending
    simp [h]
  · intro p _ o h
    unfold cancel_pending
    simp [h]

/-- Witness for C4 at a registry holding one pending and one resolved
command. -/
theorem reply_loop_finally_drains_and_cancels_witness :
    (reply_loop_finally demo_registry).1 = [] ∧
    (reply_loop_finally demo_registry).2
      = demo_registry.map (fun p => cancel_pending p.2) ∧
    (cancel_pending demo_pending_cmd).done_task = some (.error .cancelledError) ∧
    (cancel_pending demo_done_cmd).done_task = some (.ok ()) := by
  have h := reply_loop_finally_drains_and_cancels demo_registry
  refine ⟨h.1, h.2.1, ?_, ?_⟩
  · exact h.2.2.2.1 (6, demo_pending_cmd) (by decide) (by decide)
  · exact h.2.2.2.2 (5, demo_done_cmd) (by decide) (.ok ()) (by decide)

/-- C5: any GET or SET received by the mock server before a successful
AUTH (when authentication is required and has not happened) is answered
with exactly two lines — `{id} COMMAND ERROR UNAUTHENTICATED` then
`{id} COMMAND FAILED` — and performs no access to the variable tree: the
state is returned unchanged and the GET output is the same whatever the
tree contains. -/
theorem unauthenticated_get_set_no_access
    (modules modules2 : List (String × Module)) (cmdid arg : String)
    (int_of_string : String → Option Int)
    (float_repr_of_string : String → Option String) :
    do_get ⟨false, modules⟩ cmdid arg =
      [cmdid ++ " COMMAND ERROR UNAUTHENTICATED", cmdid ++ " COMMAND FAILED"] ∧
    do_get ⟨false, modules⟩ cmdid arg = do_get ⟨false, modules2⟩ cmdid arg ∧
    do_set int_of_string float_repr_of_string ⟨false, modules⟩ cmdid arg =
      (⟨false, modules⟩,
       [cmdid ++ " COMMAND ERROR UNAUTHENTICATED", cmdid ++ " COMMAND FAILED"],
       none) := by
  refine ⟨?_, ?_, ?_⟩
  · unfold do_get
    simp [write_not_authenticated_lines]
  · unfold do_get
    simp
  · unfold do_set
    simp [write_not_authenticated_lines]

/-- Witness for C5: a pre-authentication GET and SET against the mock's
initial tree. -/
theorem unauthenticated_get_set_no_access_witness :
    do_get ⟨false, initial_modules⟩ "7" "AMEBA.CURRENT.NAME!TYPE" =
      ["7 COMMAND ERROR UNAUTHENTICATED", "7 COMMAND FAILED"] ∧
    do_set py_int_of_string demo_float_repr_of_string ⟨false, initial_modules⟩ "8"
      "SKY.TEMP=-21.5" =
      (⟨false, initial_modules⟩,
       ["8 COMMAND ERROR UNAUTHENTICATED", "8 COMMAND FAILED"], none) := by
  have h7 := unauthenticated_get_set_no_access initial_modules [] "7"
    "AMEBA.CURRENT.NAME!TYPE" py_int_of_string demo_float_repr_of_string
  have h8 := unauthenticated_get_set_no_access initial_modules [] "8"
    "SKY.TEMP=-21.5" py_int_of_string demo_float_repr_of_string
  constructor
  · rw [h7.1]
    decide
  · rw [h8.2.2]
    have h : ("8" ++ " COMMAND ERROR UNAUTHENTICATED" : String)
        = "8 COMMAND ERROR UNAUTHENTICATED" := by decide
    have h2 : ("8" ++ " COMMAND FAILED" : String) = "8 COMMAND FAILED" := by decide
    rw [h, h2]

/-- C6 (counterexample): on the DATA INLINE value "NULL 1" the code keys on
the FIRST whitespace-delimited token and records the variable as ok with
the value absent, while the claim — whose NULL clause requires the value to
BE the literal token NULL — would record the value verbatim. -/
theorem handle_data_inline_null_token_divergence :
    handle_data_inline_value "NULL 1" = .ok (true, none) ∧
    claimed_data_inline_value "NULL 1" = .ok (true, some "NULL 1") ∧
    (Except.ok ((true, none) : Bool × Option String) : Except PyExc (Bool × Option String))
      ≠ .ok (true, some "NULL 1") :=
  ⟨by decide, by decide, by decide⟩

/-- C6 (amended): for every DATA INLINE value with a first
whitespace-delimited token: a first token in `BadDataReplies` records the
variable as failed with the raw value kept; otherwise a first token equal
to NULL records ok with the value absent; otherwise a value beginning with
a double quote is recorded ok with its first and last characters removed;
any other value is recorded ok verbatim. -/
theorem handle_data_inline_first_token_rule (value first_word : String)
    (h : py_first_word value = some first_word) :
    handle_data_inline_value value =
      (if first_word ∈ BadDataReplies then .ok (false, some value)
       else if first_word = "NULL" then .ok (true, none)
       else if py_head_is value '"' then .ok (true, some (py_strip_ends value))
       else .ok (true, some value)) := by
  unfold handle_data_inline_value
  rw [h]

/-- Witness for the amended C6 theorem on a quoted two-word value. -/
theorem handle_data_inline_first_token_rule_witness :
    py_first_word "\"hello world\"" = some "\"hello" ∧
    handle_data_inline_value "\"hello world\"" = .ok (true, some "hello world") := by
  have h := handle_data_inline_first_token_rule "\"hello world\"" "\"hello" (by decide)
  refine ⟨by decide, ?_⟩
  rw [h]
  decide

/-- C7 (counterexample): one completed status-loop pass that read
`AMEBA.MODE = "0"` from a state already RUNNING leaves the status field at
RUNNING (the loop body has no else branch), falsifying the claimed
"RUNNING iff mode differs from 0". -/
theorem status_loop_keeps_running_on_mode_zero :
    demo_status_cmd.get_value "AMEBA.MODE" (fun s => .ok s) "" = .ok "0" ∧
    status_loop_iteration demo_float_of_string demo_running_status demo_status_cmd
      = .ok demo_status_after ∧
    demo_status_after.status = DIMMStatus "RUNNING" ∧
    ¬(demo_status_after.status = DIMMStatus "RUNNING" ↔ ("0" : String) ≠ "0") :=
  ⟨by decide, by decide, by decide, by decide⟩

/-- C7 (amended): after a completed status-loop pass, the status field is
RUNNING when the AMEBA.MODE value read differs from "0" and otherwise keeps
its previous value (so it equals RUNNING in that case only if it already
was RUNNING). -/
theorem status_loop_iteration_running_rule
    (float_of_string : String → Except PyExc PyFloat) (st st2 : StatusDict)
    (cmd : AstelcoCommand) (mode : String)
    (hmode : cmd.get_value "AMEBA.MODE" (fun s => .ok s) "" = .ok mode)
    (h : status_loop_iteration float_of_string st cmd = .ok st2) :
    st2.status = if mode = "0" then st.status else DIMMStatus "RUNNING" := by
  unfold status_loop_iteration at h
  rw [hmode] at h
  simp only [bind, Except.bind] at h
  cases hra : cmd.get_float float_of_string "SCOPE.RA" with
  | error e => rw [hra] at h; simp at h
  | ok ra =>
    rw [hra] at h
    simp only [] at h
    cases hdec : cmd.get_float float_of_string "SCOPE.DEC" with
    | error e => rw [hdec] at h; simp at h
    | ok dec =>
      rw [hdec] at h
      simp only [] at h
      cases halt : cmd.get_float float_of_string "SCOPE.ALT" with
      | error e => rw [halt] at h; simp at h
      | ok alt =>
        rw [halt] at h
        simp only [] at h
        cases haz : cmd.get_float float_of_string "SCOPE.AZ" with
        | error e => rw [haz] at h; simp at h
        | ok az =>
          rw [haz] at h
          by_cases hm : mode = "0"
          · simp [hm, pure, Except.pure] at h
            rw [← h]
            simp [hm]
          · simp [hm, pure, Except.pure] at h
            rw [← h]
            simp [hm]

/-- Witness for the amended C7 theorem: mode "1" flips an INITIALIZED
snapshot to RUNNING. -/
theorem status_loop_iteration_running_rule_witness :
    status_loop_iteration demo_float_of_string demo_initialized_status demo_status_cmd_auto
      = .ok { status := DIMMStatus "RUNNING", ra := some 1, dec := some 1,
              altitude := some 1, azimuth := some 1 } ∧
    ({ status := DIMMStatus "RUNNING", ra := some 1, dec := some 1,
       altitude := some 1, azimuth := some 1 } : StatusDict).status
      = if ("1" : String) = "0" then demo_initialized_status.status
        else DIMMStatus "RUNNING" := by
  refine ⟨by decide, ?_⟩
  exact status_loop_iteration_running_rule demo_float_of_string demo_initialized_status
    _ demo_status_cmd_auto "1" (by decide) (by decide)

/-- C8: round trip on the mock's variable tree. For every settable scalar
variable (dotted path `v`, both tree shapes `module.field` and
`module.submodule.field`) and every value string `x_str` valid for the
field's type (`set_scalar_field` succeeds) whose stored value renders back
to `x_str` (the documented type formatting: strings are supplied and
returned in double quotes, enums as their integer form, numbers in
canonical repr), an authenticated `SET v=x_str` answers
OK / DATA OK / COMPLETE and updates exactly the addressed leaf, and an
authenticated `GET v` on the resulting state returns `x_str` in its
DATA INLINE line. The remaining hypotheses pin the protocol framing: the
variable name and value contain no `;`, `=` or `!` separators and the
value carries no surrounding whitespace. -/
theorem mock_set_get_round_trip
    (int_of_string : String → Option Int)
    (float_repr_of_string : String → Option String)
    (st : MockState) (v x_str cmdid : String) (path : List String) (cur newv : PyValue)
    (hauth : st.authenticated = true)
    (hpath : py_split (py_lower v) '.' = path)
    (hsettable : SettableScalar st path cur)
    (hset : set_scalar_field int_of_string float_repr_of_string cur x_str = .ok newv)
    (hrender : get_render newv = x_str)
    (harg : py_split (v ++ "=" ++ x_str) ';' = [v ++ "=" ++ x_str])
    (heq : py_split (v ++ "=" ++ x_str) '=' = [v, x_str])
    (htrim : py_strip x_str = x_str)
    (hsemi : py_re_split_semi v = [v])
    (hexcl : py_partition v '!' = (v, "")) :
    do_set int_of_string float_repr_of_string st cmdid (v ++ "=" ++ x_str) =
      (tree_update st path newv,
       [cmdid ++ " COMMAND OK", cmdid ++ " DATA OK " ++ v,
        cmdid ++ " COMMAND COMPLETE"], none) ∧
    do_get (tree_update st path newv) cmdid v =
      [cmdid ++ " COMMAND OK",
       cmdid ++ " DATA INLINE " ++ py_upper v ++ "=" ++ x_str,
       cmdid ++ " COMMAND COMPLETE"] := by
  have hsf : st.set_field int_of_string float_repr_of_string v x_str
      = .ok (tree_update st path newv) ∧
      (tree_update st path newv).authenticated = st.authenticated ∧
      hier_get_attr (tree_update st path newv) path = .ok (.leaf newv) := by
    cases hsettable with
    | @mod m0 f m mcur h1 h2 h3 h4 =>
      refine ⟨?_, ?_, ?_⟩
      · simp only [MockState.set_field, hpath, List.dropLast,
          List.getLast?_cons_cons, List.getLast?_singleton, Option.getD,
          h1, Bool.true_eq_false, if_false, h2, Module.set_field, h3, h4,
          hset, Except.map, tree_update]
      · simp [tree_update, h2]
      · simp only [tree_update, h2]
        unfold hier_get_attr
        simp only [h1, Bool.true_eq_false, if_false]
        rw [lookupAssoc_writeAssoc_self]
        unfold walk_module
        simp only []
        rw [lookupAssoc_writeAssoc_self]
        rfl
    | @sub m0 a f m s scur h1 h2 h3 h4 h5 h6 =>
      refine ⟨?_, ?_, ?_⟩
      · simp only [MockState.set_field, hpath, List.dropLast,
          List.getLast?_cons_cons, List.getLast?_singleton, Option.getD,
          h1, Bool.true_eq_false, if_false, h2, h3, SubModule.set_field, h4,
          h5, h6, hset, Except.map, tree_update]
      · simp [tree_update, h2, h3]
      · simp only [tree_update, h2, h3]
        unfold hier_get_attr
        simp only [h1, Bool.true_eq_false, if_false]
        rw [lookupAssoc_writeAssoc_self]
        unfold walk_module
        simp only []
        rw [lookupAssoc_writeAssoc_self]
        unfold walk_sub
        simp only []
        rw [lookupAssoc_writeAssoc_self]
        rfl
  have hpe : py_split_eq (v ++ "=" ++ x_str) = some (v, x_str) := by
    unfold py_split_eq
    rw [heq]
  obtain ⟨obj, hobj, hrend⟩ :=
    mock_get_field_leaf (tree_update st path newv) v newv (by rw [hpath]; exact hsf.2.2)
  constructor
  · unfold do_set
    simp only [hauth, Bool.true_eq_false, if_false]
    rw [harg]
    unfold set_field_loop
    rw [hpe]
    simp only [htrim, hsf.1]
    unfold set_field_loop
    simp [write_command_state_ok, write_command_state_complete, write_data_ok]
  · unfold do_get
    simp only [hsf.2.1, hauth, Bool.true_eq_false, if_false]
    rw [hsemi]
    simp only [List.map]
    unfold get_reply_line
    simp only [hexcl]
    rw [hobj]
    simp only []
    have hprop : py_lower "" = "" := rfl
    rw [hprop]
    simp only [if_pos rfl]
    rw [hrend, hrender]
    simp [write_command_state_ok, write_command_state_complete, write_data_inline]

/-- Witness for C8: `SET ameba.mode=2` then `GET ameba.mode` on the mock's
initial (authenticated) state returns 2. -/
theorem mock_set_get_round_trip_witness :
    do_set py_int_of_string demo_float_repr_of_string ⟨true, initial_modules⟩ "8"
      ("ameba.mode" ++ "=" ++ "2") =
      (tree_update ⟨true, initial_modules⟩ ["ameba", "mode"] (.venum [0, 1, 2] 2),
       ["8" ++ " COMMAND OK", "8" ++ " DATA OK " ++ "ameba.mode",
        "8" ++ " COMMAND COMPLETE"], none) ∧
    do_get (tree_update ⟨true, initial_modules⟩ ["ameba", "mode"] (.venum [0, 1, 2] 2))
      "8" "ameba.mode" =
      ["8" ++ " COMMAND OK",
       "8" ++ " DATA INLINE " ++ py_upper "ameba.mode" ++ "=" ++ "2",
       "8" ++ " COMMAND COMPLETE"] :=
  mock_set_get_round_trip py_int_of_string demo_float_repr_of_string
    ⟨true, initial_modules⟩ "ameba.mode" "2" "8" ["ameba", "mode"]
    (.venum [0, 1, 2] 1) (.venum [0, 1, 2] 2)
    rfl (by decide)
    (@SettableScalar.mod ⟨true, initial_modules⟩ "ameba" "mode" ameba_module
      (.venum [0, 1, 2] 1) (by decide) (by decide) (by decide) (by decide))
    (by decide) (by decide) (by decide) (by decide) (by decide) (by decide) (by decide)

/-- C9 (counterexample): when the awaited `GET DIMM.TIMESTAMP` command is
force-failed with `asyncio.CancelledError` (the connection-loss cleanup
path), `get_measurement` does not return `None`: `except Exception` does
not catch `CancelledError` (a `BaseException` since Python 3.8) and the
exception propagates to the caller. -/
theorem get_measurement_cancelled_error_propagates :
    get_measurement demo_float_of_string (.error .cancelledError) (.ok demo_seeing_cmd)
      = .error .cancelledError ∧
    (Except.error PyExc.cancelledError : Except PyExc (Option Measurement)) ≠ .ok none :=
  ⟨by decide, by decide⟩

/-- C9 (amended): `get_measurement` catches every `Exception`-derived
failure (command failure, missing data, conversion errors) and returns
`None`; the only exceptions it can propagate are those outside the
`Exception` hierarchy — `asyncio.CancelledError`, as raised by the
connection-loss cleanup. -/
theorem get_measurement_exception_policy
    (float_of_string : String → Except PyExc PyFloat)
    (timestamp_result seeing_result : Except PyExc AstelcoCommand) :
    (∀ e, get_measurement float_of_string timestamp_result seeing_result = .error e →
      e.isException = false) ∧
    (∀ e, timestamp_result = .error e → e.isException = true →
      get_measurement float_of_string timestamp_result seeing_result = .ok none) := by
  constructor
  · intro e h
    unfold get_measurement at h
    exact py_catch_exception_error_not_exception _ e h
  · intro e het hex
    unfold get_measurement
    rw [het]
    simp only [bind, Except.bind, py_catch_exception, hex]
    simp [hex]

/-- Witness for the amended C9 theorem: a COMMAND FAILED outcome on the
timestamp GET is caught and yields None. -/
theorem get_measurement_exception_policy_witness :
    get_measurement demo_float_of_string (.error (.commandError "TIMEOUT"))
      (.ok demo_seeing_cmd) = .ok none :=
  (get_measurement_exception_policy demo_float_of_string
    (.error (.commandError "TIMEOUT")) (.ok demo_seeing_cmd)).2
    (.commandError "TIMEOUT") rfl rfl

/-- C10: `get_value` raises `KeyError` when the command received no reply
at all for the requested name (it does not return `bad_value`); and — for a
conversion that never produces the `bad_value` marker, which is what
distinguishes the supplied `bad_value` from converted values — it returns
`bad_value` exactly when the recorded reply was failed (ok=false) or NULL
(value absent). -/
theorem get_value_keyerror_and_bad_value {α : Type} (cmd : AstelcoCommand)
    (name : String) (dtype : String → Except PyExc α) (bad_value : α)
    (hconv : ∀ s v, dtype s = .ok v → v ≠ bad_value) :
    (lookupAssoc cmd.data name = none →
      cmd.get_value name dtype bad_value = .error (.keyError name)) ∧
    (∀ isok sv, lookupAssoc cmd.data name = some (isok, sv) →
      (cmd.get_value name dtype bad_value = .ok bad_value ↔ (isok = false ∨ sv = none))) := by
  constructor
  · intro h
    unfold AstelcoCommand.get_value
    rw [h]
  · intro isok sv h
    unfold AstelcoCommand.get_value
    rw [h]
    cases isok with
    | false => simp
    | true =>
      cases sv with
      | none => simp
      | some s =>
        simp
        intro hv
        exact hconv s bad_value hv rfl

/-- Witness for C10: a missing name raises KeyError; a present, ok,
non-NULL name does not return the bad value. -/
theorem get_value_keyerror_and_bad_value_witness :
    demo_timestamp_cmd.get_value "DIMM.SEEING" demo_float_of_string (none : PyFloat)
      = .error (.keyError "DIMM.SEEING") ∧
    (demo_seeing_cmd.get_value "DIMM.SEEING" demo_float_of_string (none : PyFloat)
      = .ok none ↔ (true = false ∨ (some "2.0" : Option String) = none)) := by
  have hconv : ∀ s v, demo_float_of_string s = .ok v → v ≠ (none : PyFloat) := by
    intro s v hv hn
    rw [hn] at hv
    unfold demo_float_of_string at hv
    split_ifs at hv <;> simp at hv
  exact ⟨(get_value_keyerror_and_bad_value demo_timestamp_cmd "DIMM.SEEING"
      demo_float_of_string none hconv).1 (by decide),
    (get_value_keyerror_and_bad_value demo_seeing_cmd "DIMM.SEEING"
      demo_float_of_string none hconv).2 true (some "2.0") (by decide)⟩

end TsDimm
